import Mathlib

/-!
Verification development for the shade-it browser extension.

The service-worker coordinator (src/stateManager.js, tab-tracking variant) is
embedded as pure state-passing functions over an explicit `Storage` record and
a `CoordState` record holding the `currentShaderTabId` field.  Asynchronous
effects of the JavaScript are made explicit: storage reachability is a boolean
parameter (`readOk` / `writeOk`), message delivery to a tab is a per-tab
boolean function, and every `chrome.tabs.sendMessage` is recorded in an output
trace of `Msg` values in the order the code issues them.

The WebGPU overlay renderer (src/unnamed/part_003 together with
src/overlay/shaderManager.js) is embedded as `ShaderManager` /
`OverlayPage` records with `renderTick` for one body of the
`requestAnimationFrame` callback and `OverlayPage.changeShader` for the
shader-switch path; the debounced resize handler of the renderer is embedded
as `runResize` over a timestamped event list.
-/

namespace ShadeIt

/-- Persisted key-value store contents for the two keys the extension uses
(`shader_enabled`, `shader_type`); `none` means the key is absent. -/
structure Storage where
  enabled : Option Bool
  shaderType : Option String
  deriving Repr, DecidableEq

/-- The in-memory shader state record `{ enabled, shaderType }`. -/
structure ShaderState where
  enabled : Bool
  shaderType : String
  deriving Repr, DecidableEq

/-- JavaScript `v || dflt` on a possibly-absent string value: absent and the
empty string are falsy and fall back to the default. -/
def jsOrStr (v : Option String) (dflt : String) : String :=
  match v with
  | none => dflt
  | some s => if s = "" then dflt else s

/-- `getState` of src/stateManager.js: read both keys, defaulting the enabled
flag with `|| false` and the shader type with `|| 'flames'`; when the storage
read fails the catch branch returns the default-off state. -/
def getState (σ : Storage) (readOk : Bool) : ShaderState :=
  if readOk then
    { enabled := σ.enabled.getD false
      shaderType := jsOrStr σ.shaderType "flames" }
  else
    { enabled := false, shaderType := "flames" }

/-- `setState(enabled, shaderType = null)` of src/stateManager.js: always
writes the enabled key; writes the shader-type key only when the argument is
truthy (not null and not the empty string).  Returns the success flag and the
resulting storage; a failed write leaves storage unchanged. -/
def setState (σ : Storage) (writeOk : Bool) (enabled : Bool)
    (shaderType : Option String) : Bool × Storage :=
  if writeOk then
    let σ₁ : Storage := { σ with enabled := some enabled }
    match shaderType with
    | none => (true, σ₁)
    | some s => if s = "" then (true, σ₁) else (true, { σ₁ with shaderType := some s })
  else
    (false, σ)

/-- `toggleState` of src/stateManager.js: read the current state, write the
negated enabled flag (without a shader type), and return the new state record,
or `none` when the write failed. -/
def toggleState (σ : Storage) (readOk writeOk : Bool) :
    Option ShaderState × Storage :=
  let cur := getState σ readOk
  let r := setState σ writeOk (!cur.enabled) none
  if r.1 then (some { enabled := !cur.enabled, shaderType := cur.shaderType }, r.2)
  else (none, r.2)

/-- A message pushed to a tab via `chrome.tabs.sendMessage`. -/
inductive Msg where
  | shaderStateChanged (tab : Nat) (st : ShaderState)
  | changeShader (tab : Nat) (st : ShaderState)
  | cleanupShader (tab : Nat)
  deriving Repr, DecidableEq

/-- Response shape the message handlers send back to the popup. -/
structure Response where
  success : Bool
  data : Option ShaderState
  deriving Repr, DecidableEq

/-- The coordinator's mutable module-level state: the storage contents and
the `currentShaderTabId` record of which tab holds the live surface. -/
structure CoordState where
  storage : Storage
  holder : Option Nat
  deriving Repr, DecidableEq

/-- Per-call environment: storage reachability, the result of
`chrome.tabs.query({active: true, currentWindow: true})`, and per-tab message
deliverability. -/
structure CallEnv where
  readOk : Bool
  writeOk : Bool
  activeTab : Option Nat
  deliver : Nat → Bool

/-- JavaScript truthiness of the `currentShaderTabId` variable:
`null` and the tab id `0` are falsy. -/
def truthyHolder : Option Nat → Bool
  | none => false
  | some t => t ≠ 0

/-- `cleanupTabShader` of src/stateManager.js: attempt to send
`CLEANUP_SHADER` to the tab; the try/catch swallows a delivery failure, so the
trace records the attempt and the delivery outcome is discarded. -/
def cleanupTabShader (deliver : Nat → Bool) (tab : Nat) : List Msg :=
  let _delivered := deliver tab
  [Msg.cleanupShader tab]

/-- `activateTabShader` of src/stateManager.js: attempt to send
`SHADER_STATE_CHANGED` with the given state; delivery failure is caught and
ignored. -/
def activateTabShader (deliver : Nat → Bool) (tab : Nat) (st : ShaderState) :
    List Msg :=
  let _delivered := deliver tab
  [Msg.shaderStateChanged tab st]

/-- Outcome of a `stateUpdater` callback passed to `updateShaderState`:
it may throw (an uncaught `sendMessage` rejection), return `null`
(persistence failure), or return the new state; each case carries the storage
contents and the messages sent up to that point. -/
inductive UpdOut where
  | threw (σ : Storage) (msgs : List Msg)
  | nullRes (σ : Storage) (msgs : List Msg)
  | newSt (st : ShaderState) (σ : Storage) (msgs : List Msg)
  deriving Repr

/-- `updateShaderState` of src/stateManager.js (tab-tracking variant): run
the updater; on `null` report failure; when the new state is disabled and the
holder record is truthy, push cleanup to the holder and clear the record; when
enabled, designate the active tab (if any) as holder and push activation.  An
exception from the updater propagates to the listener-level catch, which
reports failure without touching the holder record. -/
def updateShaderState (s : CoordState) (env : CallEnv) (out : UpdOut) :
    CoordState × List Msg × Response :=
  match out with
  | .threw σ msgs =>
      ({ s with storage := σ }, msgs, { success := false, data := none })
  | .nullRes σ msgs =>
      ({ s with storage := σ }, msgs, { success := false, data := none })
  | .newSt st σ msgs =>
      if !st.enabled && truthyHolder s.holder then
        match s.holder with
        | some t =>
            ({ storage := σ, holder := none },
             msgs ++ cleanupTabShader env.deliver t,
             { success := true, data := some st })
        | none =>
            ({ s with storage := σ }, msgs, { success := true, data := some st })
      else if st.enabled then
        match env.activeTab with
        | some a =>
            ({ storage := σ, holder := some a },
             msgs ++ activateTabShader env.deliver a st,
             { success := true, data := some st })
        | none =>
            ({ s with storage := σ }, msgs, { success := true, data := some st })
      else
        ({ s with storage := σ }, msgs, { success := true, data := some st })

/-- `handleGetState` of src/stateManager.js. -/
def handleGetState (s : CoordState) (env : CallEnv) : Response :=
  { success := true, data := some (getState s.storage env.readOk) }

/-- The `stateUpdater` closure of `handleSetState`: persist the flag, then
read the state back through storage. -/
def setStateUpdater (σ : Storage) (env : CallEnv) (enabled : Bool) : UpdOut :=
  let r := setState σ env.writeOk enabled none
  if r.1 then .newSt (getState r.2 env.readOk) r.2 []
  else .nullRes r.2 []

/-- `handleSetState` of src/stateManager.js (tab-tracking variant). -/
def handleSetState (s : CoordState) (env : CallEnv) (enabled : Bool) :
    CoordState × List Msg × Response :=
  updateShaderState s env (setStateUpdater s.storage env enabled)

/-- The `stateUpdater` closure of `handleToggleState` (delegates to
`toggleState`). -/
def toggleStateUpdater (σ : Storage) (env : CallEnv) : UpdOut :=
  match toggleState σ env.readOk env.writeOk with
  | (some st, σ₁) => .newSt st σ₁ []
  | (none, σ₁) => .nullRes σ₁ []

/-- `handleToggleState` of src/stateManager.js (tab-tracking variant). -/
def handleToggleState (s : CoordState) (env : CallEnv) :
    CoordState × List Msg × Response :=
  updateShaderState s env (toggleStateUpdater s.storage env)

/-- The `stateUpdater` closure of `handleChangeShader`: persist the shader
type keeping the current enabled flag; when enabled and the holder record is
truthy, send `CHANGE_SHADER` directly to the holder — this send is *not*
wrapped in try/catch, so a delivery failure there rejects the whole handler. -/
def changeShaderUpdater (σ : Storage) (holder : Option Nat) (env : CallEnv)
    (ty : String) : UpdOut :=
  let cur := getState σ env.readOk
  let r := setState σ env.writeOk cur.enabled (some ty)
  if r.1 then
    let newState : ShaderState := { enabled := cur.enabled, shaderType := ty }
    if newState.enabled && truthyHolder holder then
      match holder with
      | some t =>
          if env.deliver t then .newSt newState r.2 [Msg.changeShader t newState]
          else .threw r.2 [Msg.changeShader t newState]
      | none => .newSt newState r.2 []
    else .newSt newState r.2 []
  else .nullRes r.2 []

/-- `handleChangeShader` of src/stateManager.js (tab-tracking variant). -/
def handleChangeShader (s : CoordState) (env : CallEnv) (ty : String) :
    CoordState × List Msg × Response :=
  updateShaderState s env (changeShaderUpdater s.storage s.holder env ty)

/-- `handleTabSwitch` of src/stateManager.js: no-op when disabled; otherwise
record the new tab as holder, push activation to it first, then push cleanup
to the old holder when it is truthy and different. -/
def handleTabSwitch (s : CoordState) (env : CallEnv) (newTab : Nat) :
    CoordState × List Msg :=
  let st := getState s.storage env.readOk
  if !st.enabled then (s, [])
  else
    let oldTab := s.holder
    let s₁ : CoordState := { s with holder := some newTab }
    let actMsgs := activateTabShader env.deliver newTab st
    match oldTab with
    | some t =>
        if t ≠ 0 && t ≠ newTab then
          (s₁, actMsgs ++ cleanupTabShader env.deliver t)
        else (s₁, actMsgs)
    | none => (s₁, actMsgs)

/-- One external stimulus handled by the coordinator, with its per-call
environment. -/
inductive Call where
  | setEnabled (enabled : Bool) (env : CallEnv)
  | toggle (env : CallEnv)
  | changeShader (ty : String) (env : CallEnv)
  | tabSwitch (tab : Nat) (env : CallEnv)

/-- Step the coordinator on one call, discarding the trace and response. -/
def step (s : CoordState) : Call → CoordState
  | .setEnabled b env => (handleSetState s env b).1
  | .toggle env => (handleToggleState s env).1
  | .changeShader ty env => (handleChangeShader s env ty).1
  | .tabSwitch tab env => (handleTabSwitch s env tab).1

/-- Run the coordinator over a sequence of calls. -/
def run (s : CoordState) : List Call → CoordState
  | [] => s
  | c :: cs => run (step s c) cs

/-- How many pages the coordinator's record designates as the active-surface
holder. -/
def holderCount (s : CoordState) : Nat :=
  match s.holder with
  | none => 0
  | some _ => 1

/-! ### Page-side reaction to pushed messages

The content-script listener of the overlay (src/unnamed/part_003, message
handling section): `SHADER_STATE_CHANGED` calls `toggleOverlayVisibility`
(overlay present iff enabled), `CHANGE_SHADER` swaps the pipeline without
changing whether an overlay exists, `CLEANUP_SHADER` calls `cleanupOverlay`.
We track only whether each page has a live overlay. -/

/-- Apply one delivered message to the per-page overlay-present map. -/
def applyMsg (pages : Nat → Bool) : Msg → (Nat → Bool)
  | .shaderStateChanged t st => fun p => if p = t then st.enabled else pages p
  | .changeShader _ _ => pages
  | .cleanupShader t => fun p => if p = t then false else pages p

/-- Apply a trace of delivered messages in order. -/
def applyMsgs (pages : Nat → Bool) : List Msg → (Nat → Bool)
  | [] => pages
  | m :: ms => applyMsgs (applyMsg pages m) ms

/-! ### WebGPU overlay renderer

Embedding of src/overlay/shaderManager.js (`ShaderManager`) and
src/unnamed/part_003 (`renderLoop`, `changeShader`).  Compilation success of
a shader type's source is a boolean environment function `compileOk`; a
compiled pipeline is represented by the shader name it was deterministically
derived from. -/

/-- A compiled render pipeline together with its bind group, derived from a
shader type's source text. -/
structure PipelineData where
  name : String
  deriving Repr, DecidableEq

/-- The `ShaderManager` instance fields: the pipeline cache keyed by shader
name and the current active pipeline pointer. -/
structure ShaderManager where
  pipelines : List (String × PipelineData)
  currentPipeline : Option PipelineData
  deriving Repr, DecidableEq

namespace ShaderManager

/-- Look a shader name up in the pipeline cache. -/
def findPipeline (sm : ShaderManager) (name : String) : Option PipelineData :=
  sm.pipelines.lookup name

/-- `ShaderManager.createPipeline`: return the cached pipeline when present;
otherwise create the shader modules — which throws on malformed source,
before anything is cached — and cache the new pipeline. -/
def createPipeline (sm : ShaderManager) (name : String)
    (compileOk : String → Bool) : Except Unit (ShaderManager × PipelineData) :=
  match sm.findPipeline name with
  | some pd => .ok (sm, pd)
  | none =>
      if compileOk name then
        let pd : PipelineData := { name := name }
        .ok ({ sm with pipelines := (name, pd) :: sm.pipelines }, pd)
      else .error ()

/-- `ShaderManager.setCurrentPipeline`: point the active-pipeline pointer at
the cached pipeline for the name, when present. -/
def setCurrentPipeline (sm : ShaderManager) (name : String) :
    ShaderManager × Bool :=
  match sm.findPipeline name with
  | some pd => ({ sm with currentPipeline := some pd }, true)
  | none => (sm, false)

end ShaderManager

/-- The overlay page's module-level state (src/unnamed/part_003): the global
shader manager and device, the current shader type, and the render-loop
closure state (`startTime`, `lastFrameTime` in seconds, the stop flag). -/
structure OverlayPage where
  shaderManager : Option ShaderManager
  hasDevice : Bool
  currentShaderType : String
  startTime : ℚ
  lastFrameTime : ℚ
  shouldStopAnimation : Bool
  deriving Repr, DecidableEq

/-- One execution of the `render(currentTimeMs)` body of `renderLoop`
(src/unnamed/part_003): do nothing when stopped, when there is no manager or
no current pipeline, or when less than one sixtieth of a second elapsed since
the last drawn frame; otherwise write `elapsedTime = currentTime - startTime`
into the time uniform and issue one draw with the pipeline read from the
manager at call time.  Returns the updated page plus the drawn
(elapsed-time, pipeline) pair when a draw happened. -/
def renderTick (p : OverlayPage) (tMs : ℚ) : OverlayPage × Option (ℚ × PipelineData) :=
  if p.shouldStopAnimation then (p, none)
  else
    match p.shaderManager with
    | none => (p, none)
    | some sm =>
        match sm.currentPipeline with
        | none => (p, none)
        | some pd =>
            let t := tMs / 1000
            if t - p.lastFrameTime < 1 / 60 then (p, none)
            else ({ p with lastFrameTime := t }, some (t - p.startTime, pd))

/-- `changeShader` of src/unnamed/part_003: no-op when the type is already
current or when there is no manager/device; otherwise compile-or-fetch the
pipeline — a compile failure rejects, leaving every module-level variable
untouched — then set it current and record the new type. -/
def OverlayPage.changeShader (p : OverlayPage) (ty : String)
    (compileOk : String → Bool) : Except Unit OverlayPage :=
  if ty = p.currentShaderType then .ok p
  else
    match p.shaderManager with
    | none => .ok p
    | some sm =>
        if !p.hasDevice then .ok p
        else
          match sm.createPipeline ty compileOk with
          | .error e => .error e
          | .ok (sm₁, _) =>
              .ok { p with shaderManager := some (sm₁.setCurrentPipeline ty).1,
                           currentShaderType := ty }

/-! ### Debounced resize

Embedding of `setupCanvasResize` (src/overlay/shader.js and identically in
src/unnamed/part_003): each resize event clears any pending timeout and
schedules the reconfiguration 16 ms later; the timeout body reads the window
dimensions at fire time and reconfigures the canvas only when they differ
from its current dimensions.  Under the single-threaded event model a pending
timer fires as soon as its fire time is reached, so we simulate a timestamped
event list, firing any due timer before handling the next event and firing
the surviving timer after the last event. -/

/-- The debounce delay of the resize handler, in milliseconds. -/
def debounceDelay : ℚ := 16

/-- The resize handler's state: the pending timeout's fire time (if any) and
the canvas's current dimensions. -/
structure ResizeState where
  pendingFire : Option ℚ
  canvasW : Nat
  canvasH : Nat
  deriving Repr, DecidableEq

/-- The timeout body: read the window dimensions, and reconfigure the canvas
only when they differ from its current dimensions.  Returns the new state and
the reconfigurations performed (zero or one). -/
def fireBody (s : ResizeState) (w h : Nat) : ResizeState × List (Nat × Nat) :=
  if s.canvasW ≠ w ∨ s.canvasH ≠ h then
    ({ pendingFire := none, canvasW := w, canvasH := h }, [(w, h)])
  else
    ({ s with pendingFire := none }, [])

/-- One resize event at time `t`: clear the pending timeout and schedule a
new one `debounceDelay` later. -/
def handleResizeEvent (s : ResizeState) (t : ℚ) : ResizeState :=
  { s with pendingFire := some (t + debounceDelay) }

/-- Fire the pending timer if it is due at or before time `t` (single-thread
semantics: a due timeout callback runs before the next event handler). -/
def fireDue (s : ResizeState) (t : ℚ) (curW curH : Nat) :
    ResizeState × List (Nat × Nat) :=
  match s.pendingFire with
  | some f => if f ≤ t then fireBody s curW curH else (s, [])
  | none => (s, [])

/-- Simulate the debounced resize handler over a timestamped event list
`(time, window-width, window-height)`, with `curW`/`curH` the window
dimensions reported by the latest event so far.  A pending timer due at or
before the next event fires first (reading the then-current window
dimensions); after the last event the surviving timer fires.  Returns the
final state and all reconfigurations performed, in order. -/
def runResize (s : ResizeState) (curW curH : Nat) :
    List (ℚ × Nat × Nat) → ResizeState × List (Nat × Nat)
  | [] =>
      match s.pendingFire with
      | none => (s, [])
      | some _ => fireBody s curW curH
  | (t, w, h) :: rest =>
      let r₁ := fireDue s t curW curH
      let r₂ := runResize (handleResizeEvent r₁.1 t) w h rest
      (r₂.1, r₁.2 ++ r₂.2)

/-- No pending timer is due at or before time `t`. -/
def noFireBefore (pf : Option ℚ) (t : ℚ) : Prop :=
  match pf with
  | none => True
  | some f => t < f

/-- Consecutive events of the list are ordered and separated by strictly less
than the debounce delay, so no timer scheduled by one of them can fire before
the next one arrives. -/
def burstGaps : List (ℚ × Nat × Nat) → Prop
  | [] => True
  | [_] => True
  | (t₁, _, _) :: e₂ :: rest => t₁ ≤ e₂.1 ∧ e₂.1 < t₁ + debounceDelay ∧ burstGaps (e₂ :: rest)

/-- A pending timer, if any, is due strictly after the first event of the
list. -/
def pendOk (s : ResizeState) : List (ℚ × Nat × Nat) → Prop
  | [] => True
  | (t, _, _) :: _ => noFireBefore s.pendingFire t

/-! ### Concrete example values used by witnesses -/

/-- The compiled pipeline of the default "flames" effect. -/
def flamesPipeline : PipelineData := { name := "flames" }

/-- The compiled pipeline of the "clouds" effect. -/
def cloudsPipeline : PipelineData := { name := "clouds" }

/-- A manager holding the "flames" pipeline as current. -/
def flamesSM : ShaderManager :=
  { pipelines := [("flames", flamesPipeline)], currentPipeline := some flamesPipeline }

/-- An active page rendering the "flames" effect since time origin 0. -/
def flamesPage : OverlayPage :=
  { shaderManager := some flamesSM, hasDevice := true, currentShaderType := "flames",
    startTime := 0, lastFrameTime := 0, shouldStopAnimation := false }

/-- The manager of `flamesPage` after a successful switch to "clouds". -/
def cloudsSM : ShaderManager :=
  { pipelines := [("clouds", cloudsPipeline), ("flames", flamesPipeline)],
    currentPipeline := some cloudsPipeline }

/-- The page state after `flamesPage` ticked at 1000 ms and then switched to
"clouds" successfully. -/
def cloudsPage : OverlayPage :=
  { shaderManager := some cloudsSM, hasDevice := true, currentShaderType := "clouds",
    startTime := 0, lastFrameTime := 1000 / 1000, shouldStopAnimation := false }

/-! ## Theorems -/

/-- The coordinator's holder record is a single optional tab id, so it
designates at most one page. -/
theorem holderCount_le_one (s : CoordState) : holderCount s ≤ 1 := by
  unfold holderCount
  cases s.holder <;> simp

/-- C1: for every sequence of setEnabled/setEffect/onVisibilityChange
(tab-switch) calls handled by the coordinator starting from the initial
record (no holder), at most one page is the designated active-surface holder
in the coordinator's record (`currentShaderTabId`) after every call, i.e.
after every prefix of the sequence. -/
theorem C1_at_most_one_holder (s₀ : CoordState) (h₀ : s₀.holder = none)
    (calls pre suf : List Call) (hsplit : calls = pre ++ suf) :
    holderCount (run s₀ pre) ≤ 1 :=
  holderCount_le_one (run s₀ pre)

/-- Witness for C1 at a concrete two-call sequence. -/
theorem C1_at_most_one_holder_witness :
    holderCount
      (run { storage := { enabled := none, shaderType := none }, holder := none }
        [Call.setEnabled true
          { readOk := true, writeOk := true, activeTab := some 1, deliver := fun _ => true }]) ≤ 1 :=
  C1_at_most_one_holder
    { storage := { enabled := none, shaderType := none }, holder := none } rfl
    [Call.setEnabled true
      { readOk := true, writeOk := true, activeTab := some 1, deliver := fun _ => true }]
    [Call.setEnabled true
      { readOk := true, writeOk := true, activeTab := some 1, deliver := fun _ => true }]
    [] (by simp)

/-- C7: `getState` never throws: whenever the persisted store read fails, it
returns the default-off state (enabled false, shader type "flames") instead
of propagating the error, and the GET_STATE handler correspondingly answers
success with that default state. -/
theorem C7_getState_fails_soft (σ : Storage) (s : CoordState) (env : CallEnv)
    (h : env.readOk = false) :
    getState σ env.readOk = { enabled := false, shaderType := "flames" } ∧
    handleGetState s env =
      { success := true, data := some { enabled := false, shaderType := "flames" } } := by
  constructor
  · simp [getState, h]
  · simp [handleGetState, getState, h]

/-- Witness for C7 with an unreachable store. -/
theorem C7_getState_fails_soft_witness :
    getState { enabled := some true, shaderType := some "clouds" } false =
      { enabled := false, shaderType := "flames" } ∧
    handleGetState
      { storage := { enabled := some true, shaderType := some "clouds" }, holder := some 3 }
      { readOk := false, writeOk := true, activeTab := none, deliver := fun _ => true } =
      { success := true, data := some { enabled := false, shaderType := "flames" } } :=
  C7_getState_fails_soft
    { enabled := some true, shaderType := some "clouds" }
    { storage := { enabled := some true, shaderType := some "clouds" }, holder := some 3 }
    { readOk := false, writeOk := true, activeTab := none, deliver := fun _ => true }
    rfl

/-- C8: when no value has been persisted for a key, `getState` returns
enabled = false and the canonical default effect id "flames". -/
theorem C8_absent_defaults (σ : Storage) (h₁ : σ.enabled = none)
    (h₂ : σ.shaderType = none) :
    getState σ true = { enabled := false, shaderType := "flames" } := by
  simp [getState, jsOrStr, h₁, h₂]

/-- Witness for C8 on the empty store. -/
theorem C8_absent_defaults_witness :
    getState { enabled := none, shaderType := none } true =
      { enabled := false, shaderType := "flames" } :=
  C8_absent_defaults { enabled := none, shaderType := none } rfl rfl

/-- C10: toggling writes only the `shader_enabled` key and leaves the
persisted `shader_type` unchanged; `setState` with a falsy shader type
(null or the empty string) does not write the `shader_type` key at all; so
the empty string can never be persisted as the shader type through this
interface. -/
theorem C10_toggle_writes_only_enabled (σ : Storage) (e w r : Bool)
    (ty : Option String) (hty : σ.shaderType ≠ some "") :
    (setState σ w e none).2.shaderType = σ.shaderType ∧
    (setState σ w e (some "")).2.shaderType = σ.shaderType ∧
    (toggleState σ r w).2.shaderType = σ.shaderType ∧
    (setState σ w e ty).2.shaderType ≠ some "" := by
  refine ⟨?_, ?_, ?_, ?_⟩
  · cases w <;> simp [setState]
  · cases w <;> simp [setState]
  · cases w <;> simp [toggleState, setState]
  · cases w
    · simpa [setState] using hty
    · rcases ty with _ | t
      · simpa [setState] using hty
      · rcases eq_or_ne t "" with rfl | ht
        · simpa [setState] using hty
        · simp [setState, ht]

/-- C2: a tab switch to `pB` while the shader is enabled and a different page
`pA` holds the surface sends the activation message to `pB` strictly before
the deactivation message to `pA` (the trace lists messages in send order),
records only `pB` as holder afterwards, and — applying the delivered trace to
the per-page overlay map — leaves exactly `pB` with a live overlay. -/
theorem C2_activate_then_deactivate (s : CoordState) (env : CallEnv)
    (pA pB : Nat) (pages : Nat → Bool)
    (hHold : s.holder = some pA) (hA0 : pA ≠ 0) (hNe : pA ≠ pB)
    (hEn : (getState s.storage env.readOk).enabled = true)
    (hPages : ∀ p, pages p = true → p = pA) :
    (handleTabSwitch s env pB).2 =
      [Msg.shaderStateChanged pB (getState s.storage env.readOk),
       Msg.cleanupShader pA] ∧
    (handleTabSwitch s env pB).1.holder = some pB ∧
    (∀ p, applyMsgs pages (handleTabSwitch s env pB).2 p = true ↔ p = pB) := by
  have htrace : (handleTabSwitch s env pB).2 =
      [Msg.shaderStateChanged pB (getState s.storage env.readOk),
       Msg.cleanupShader pA] := by
    simp [handleTabSwitch, hEn, hHold, hA0, hNe, activateTabShader, cleanupTabShader]
  have hholder : (handleTabSwitch s env pB).1.holder = some pB := by
    simp [handleTabSwitch, hEn, hHold, hA0, hNe, activateTabShader, cleanupTabShader]
  refine ⟨htrace, hholder, ?_⟩
  intro p
  rw [htrace]
  simp only [applyMsgs, applyMsg]
  by_cases hpA : p = pA
  · subst hpA
    simp [hNe, Ne.symm hNe]
  · by_cases hpB : p = pB
    · subst hpB
      simp [hpA, hEn]
    · simp only [if_neg hpA, if_neg hpB]
      constructor
      · intro hp
        exact absurd (hPages p hp) hpA
      · intro hp
        exact absurd hp hpB

/-- Witness for C2: enabled store, holder tab 1, switch to tab 2, with only
tab 1 initially showing an overlay. -/
theorem C2_activate_then_deactivate_witness :
    (handleTabSwitch
        { storage := { enabled := some true, shaderType := some "flames" }, holder := some 1 }
        { readOk := true, writeOk := true, activeTab := some 2, deliver := fun _ => true } 2).2 =
      [Msg.shaderStateChanged 2 { enabled := true, shaderType := "flames" },
       Msg.cleanupShader 1] ∧
    (handleTabSwitch
        { storage := { enabled := some true, shaderType := some "flames" }, holder := some 1 }
        { readOk := true, writeOk := true, activeTab := some 2, deliver := fun _ => true } 2).1.holder =
      some 2 ∧
    (∀ p, applyMsgs (fun q => decide (q = 1))
        (handleTabSwitch
          { storage := { enabled := some true, shaderType := some "flames" }, holder := some 1 }
          { readOk := true, writeOk := true, activeTab := some 2, deliver := fun _ => true } 2).2 p = true ↔
      p = 2) :=
  C2_activate_then_deactivate
    { storage := { enabled := some true, shaderType := some "flames" }, holder := some 1 }
    { readOk := true, writeOk := true, activeTab := some 2, deliver := fun _ => true }
    1 2 (fun q => decide (q = 1)) rfl (by decide) (by decide) rfl
    (fun p hp => by simpa using hp)

/-- C5: disabling (SET_STATE false, or TOGGLE_STATE while enabled) persists
the new off state, pushes exactly one CLEANUP_SHADER deactivation to the tab
the coordinator records as holder, clears the holder record, and succeeds —
and the whole outcome is independent of whether that deactivation message is
deliverable. -/
theorem C5_disable_cleanup (s : CoordState) (env : CallEnv) (t : Nat)
    (hHold : s.holder = some t) (ht : t ≠ 0)
    (hw : env.writeOk = true) (hr : env.readOk = true) :
    ((handleSetState s env false).2.2.success = true ∧
     (handleSetState s env false).1.storage.enabled = some false ∧
     (handleSetState s env false).2.1 = [Msg.cleanupShader t] ∧
     (handleSetState s env false).1.holder = none) ∧
    ((getState s.storage env.readOk).enabled = true →
     (handleToggleState s env).2.2.success = true ∧
     (handleToggleState s env).1.storage.enabled = some false ∧
     (handleToggleState s env).2.1 = [Msg.cleanupShader t] ∧
     (handleToggleState s env).1.holder = none) ∧
    (∀ d : Nat → Bool,
      handleSetState s { env with deliver := d } false = handleSetState s env false) := by
  refine ⟨?_, ?_, ?_⟩
  · simp [handleSetState, setStateUpdater, setState, getState, updateShaderState,
      truthyHolder, cleanupTabShader, hHold, ht, hw, hr]
  · intro hEn
    simp [handleToggleState, toggleStateUpdater, toggleState, setState, updateShaderState,
      truthyHolder, cleanupTabShader, hHold, ht, hw, hEn]
  · intro d
    simp [handleSetState, setStateUpdater, setState, getState, updateShaderState,
      truthyHolder, cleanupTabShader, hHold, ht, hw, hr]

/-- Witness for C5: enabled store, holder tab 1, with message delivery
failing everywhere — the disable still succeeds, cleans up and clears the
holder. -/
theorem C5_disable_cleanup_witness :
    ((handleSetState
        { storage := { enabled := some true, shaderType := some "flames" }, holder := some 1 }
        { readOk := true, writeOk := true, activeTab := some 1, deliver := fun _ => false }
        false).2.2.success = true ∧
     (handleSetState
        { storage := { enabled := some true, shaderType := some "flames" }, holder := some 1 }
        { readOk := true, writeOk := true, activeTab := some 1, deliver := fun _ => false }
        false).1.storage.enabled = some false ∧
     (handleSetState
        { storage := { enabled := some true, shaderType := some "flames" }, holder := some 1 }
        { readOk := true, writeOk := true, activeTab := some 1, deliver := fun _ => false }
        false).2.1 = [Msg.cleanupShader 1] ∧
     (handleSetState
        { storage := { enabled := some true, shaderType := some "flames" }, holder := some 1 }
        { readOk := true, writeOk := true, activeTab := some 1, deliver := fun _ => false }
        false).1.holder = none) ∧
    ((getState { enabled := some true, shaderType := some "flames" } true).enabled = true →
     (handleToggleState
        { storage := { enabled := some true, shaderType := some "flames" }, holder := some 1 }
        { readOk := true, writeOk := true, activeTab := some 1, deliver := fun _ => false }).2.2.success = true ∧
     (handleToggleState
        { storage := { enabled := some true, shaderType := some "flames" }, holder := some 1 }
        { readOk := true, writeOk := true, activeTab := some 1, deliver := fun _ => false }).1.storage.enabled = some false ∧
     (handleToggleState
        { storage := { enabled := some true, shaderType := some "flames" }, holder := some 1 }
        { readOk := true, writeOk := true, activeTab := some 1, deliver := fun _ => false }).2.1 = [Msg.cleanupShader 1] ∧
     (handleToggleState
        { storage := { enabled := some true, shaderType := some "flames" }, holder := some 1 }
        { readOk := true, writeOk := true, activeTab := some 1, deliver := fun _ => false }).1.holder = none) ∧
    (∀ d : Nat → Bool,
      handleSetState
        { storage := { enabled := some true, shaderType := some "flames" }, holder := some 1 }
        { readOk := true, writeOk := true, activeTab := some 1, deliver := d }
        false =
      handleSetState
        { storage := { enabled := some true, shaderType := some "flames" }, holder := some 1 }
        { readOk := true, writeOk := true, activeTab := some 1, deliver := fun _ => false }
        false) :=
  C5_disable_cleanup
    { storage := { enabled := some true, shaderType := some "flames" }, holder := some 1 }
    { readOk := true, writeOk := true, activeTab := some 1, deliver := fun _ => false }
    1 rfl (by decide) rfl rfl

/-- On a `newSt` updater outcome, `updateShaderState` always reports success
and keeps the storage the updater produced. -/
theorem updateShaderState_newSt (s : CoordState) (env : CallEnv)
    (st : ShaderState) (σ : Storage) (msgs : List Msg) :
    (updateShaderState s env (.newSt st σ msgs)).1.storage = σ ∧
    (updateShaderState s env (.newSt st σ msgs)).2.2.success = true := by
  unfold updateShaderState
  rcases h : s.holder with _ | t <;> rcases env.activeTab with _ | a <;>
    by_cases he : st.enabled <;>
      simp [truthyHolder, he, h] <;> split_ifs <;> simp

/-- C6: a successful CHANGE_SHADER("clouds") persists the new shader type in
the store, and a subsequent `getState` — which reads through the persisted
store, so the value survives a store reload — returns shader type
"clouds". -/
theorem C6_roundtrip (s : CoordState) (env : CallEnv)
    (hw : env.writeOk = true) (hr : env.readOk = true)
    (hdel : ∀ u, env.deliver u = true) :
    (handleChangeShader s env "clouds").2.2.success = true ∧
    (handleChangeShader s env "clouds").1.storage.shaderType = some "clouds" ∧
    (getState (handleChangeShader s env "clouds").1.storage true).shaderType = "clouds" := by
  have hupd : ∃ st, changeShaderUpdater s.storage s.holder env "clouds" =
      .newSt st (setState s.storage env.writeOk (getState s.storage env.readOk).enabled
        (some "clouds")).2
      (if (getState s.storage env.readOk).enabled && truthyHolder s.holder then
        [Msg.changeShader ((s.holder).getD 0)
          { enabled := (getState s.storage env.readOk).enabled, shaderType := "clouds" }]
       else []) := by
    unfold changeShaderUpdater
    simp only [hw, setState]
    rcases hh : s.holder with _ | t
    · simp [truthyHolder, hh, setState, hw]
    · by_cases ht0 : t = 0 <;>
        by_cases he : (getState s.storage env.readOk).enabled <;>
          simp [truthyHolder, hh, he, ht0, setState, hw, hdel t]
  obtain ⟨st, hst⟩ := hupd
  have hσ : (setState s.storage env.writeOk (getState s.storage env.readOk).enabled
      (some "clouds")).2.shaderType = some "clouds" := by
    simp [setState, hw]
  have hmain := updateShaderState_newSt s env st
    (setState s.storage env.writeOk (getState s.storage env.readOk).enabled (some "clouds")).2
    (if (getState s.storage env.readOk).enabled && truthyHolder s.holder then
      [Msg.changeShader ((s.holder).getD 0)
        { enabled := (getState s.storage env.readOk).enabled, shaderType := "clouds" }]
     else [])
  have heq : handleChangeShader s env "clouds" =
      updateShaderState s env (changeShaderUpdater s.storage s.holder env "clouds") := rfl
  rw [heq, hst]
  refine ⟨hmain.2, ?_, ?_⟩
  · rw [hmain.1]
    exact hσ
  · rw [hmain.1]
    have : (getState (setState s.storage env.writeOk
        (getState s.storage env.readOk).enabled (some "clouds")).2 true).shaderType =
        jsOrStr (some "clouds") "flames" := by
      rw [getState, if_pos rfl, hσ]
    rw [this]
    simp [jsOrStr]

/-- Witness for C6: enabled store with default shader type, holder tab 1,
delivery working. -/
theorem C6_roundtrip_witness :
    (handleChangeShader
        { storage := { enabled := some true, shaderType := some "flames" }, holder := some 1 }
        { readOk := true, writeOk := true, activeTab := some 1, deliver := fun _ => true }
        "clouds").2.2.success = true ∧
    (handleChangeShader
        { storage := { enabled := some true, shaderType := some "flames" }, holder := some 1 }
        { readOk := true, writeOk := true, activeTab := some 1, deliver := fun _ => true }
        "clouds").1.storage.shaderType = some "clouds" ∧
    (getState
        (handleChangeShader
          { storage := { enabled := some true, shaderType := some "flames" }, holder := some 1 }
          { readOk := true, writeOk := true, activeTab := some 1, deliver := fun _ => true }
          "clouds").1.storage true).shaderType = "clouds" :=
  C6_roundtrip
    { storage := { enabled := some true, shaderType := some "flames" }, holder := some 1 }
    { readOk := true, writeOk := true, activeTab := some 1, deliver := fun _ => true }
    rfl rfl (fun _ => rfl)

/-- A successful `createPipeline` leaves the requested pipeline in the
cache under its name. -/
theorem createPipeline_findPipeline (sm sm₁ : ShaderManager) (ty : String)
    (ck : String → Bool) (pd₁ : PipelineData)
    (h : sm.createPipeline ty ck = .ok (sm₁, pd₁)) :
    sm₁.findPipeline ty = some pd₁ := by
  unfold ShaderManager.createPipeline at h
  rcases hf : sm.findPipeline ty with _ | pd₀
  · rw [hf] at h
    rcases hc : ck ty with _ | _
    · rw [hc] at h
      simp at h
    · rw [hc] at h
      simp at h
      obtain ⟨h₁, h₂⟩ := h
      subst h₁
      subst h₂
      simp [ShaderManager.findPipeline, List.lookup]
  · rw [hf] at h
    simp at h
    obtain ⟨h₁, h₂⟩ := h
    subst h₁
    subst h₂
    exact hf

/-- A successful shader switch never touches the render-loop closure state
(`startTime`, `lastFrameTime`, the stop flag), and keeps the manager holding
some current pipeline when it held one before. -/
theorem changeShader_ok_preserves (p q : OverlayPage) (ty : String)
    (ck : String → Bool) (h : p.changeShader ty ck = .ok q) :
    q.startTime = p.startTime ∧ q.lastFrameTime = p.lastFrameTime ∧
    q.shouldStopAnimation = p.shouldStopAnimation ∧
    (∀ sm pd, p.shaderManager = some sm → sm.currentPipeline = some pd →
      ∃ sm₂ pd₂, q.shaderManager = some sm₂ ∧ sm₂.currentPipeline = some pd₂) := by
  unfold OverlayPage.changeShader at h
  split at h
  · injection h with h
    subst h
    exact ⟨rfl, rfl, rfl, fun sm pd h₁ h₂ => ⟨sm, pd, h₁, h₂⟩⟩
  · split at h
    · injection h with h
      subst h
      exact ⟨rfl, rfl, rfl, fun sm pd h₁ h₂ => ⟨sm, pd, h₁, h₂⟩⟩
    · next sm hsm =>
        split at h
        · injection h with h
          subst h
          exact ⟨rfl, rfl, rfl, fun sm₀ pd₀ h₁ h₂ => ⟨sm₀, pd₀, h₁, h₂⟩⟩
        · split at h
          · exact absurd h (by simp)
          · next sm₁ pd₁ hcp =>
              injection h with h
              subst h
              refine ⟨rfl, rfl, rfl, fun sm₀ pd₀ h₁ h₂ => ?_⟩
              have hfind := createPipeline_findPipeline sm sm₁ ty ck pd₁ hcp
              refine ⟨(sm₁.setCurrentPipeline ty).1, pd₁, rfl, ?_⟩
              unfold ShaderManager.setCurrentPipeline
              rw [hfind]

/-- C3: switching to an effect whose source is malformed reports a compile
error and aborts, leaving every module-level variable untouched, so the
previously active pipeline is still the one the render loop draws with on the
next tick — the surface never goes blank on a bad switch. -/
theorem C3_compile_error_keeps_pipeline (p : OverlayPage) (sm : ShaderManager)
    (pd : PipelineData) (ty : String) (ck : String → Bool) (tMs : ℚ)
    (hsm : p.shaderManager = some sm) (hdev : p.hasDevice = true)
    (hcur : sm.currentPipeline = some pd)
    (hne : ty ≠ p.currentShaderType)
    (hmiss : sm.findPipeline ty = none)
    (hbad : ck ty = false)
    (hstop : p.shouldStopAnimation = false)
    (ht : 1 / 60 ≤ tMs / 1000 - p.lastFrameTime) :
    p.changeShader ty ck = .error () ∧
    (renderTick p tMs).2 = some (tMs / 1000 - p.startTime, pd) := by
  have hn : ¬ (tMs / 1000 - p.lastFrameTime < (60 : ℚ)⁻¹) := by
    rw [inv_eq_one_div]
    exact not_lt.mpr ht
  constructor
  · unfold OverlayPage.changeShader
    simp [hne, hsm, hdev, ShaderManager.createPipeline, hmiss, hbad]
  · unfold renderTick
    simp [hstop, hsm, hcur, hn]

/-- Witness for C3: a page actively rendering "flames" asked to switch to a
"bogus" effect whose source does not compile. -/
theorem C3_compile_error_keeps_pipeline_witness :
    OverlayPage.changeShader flamesPage "bogus" (fun s => decide (s = "flames")) =
      .error () ∧
    (renderTick flamesPage 1000).2 = some (1000 / 1000 - flamesPage.startTime, flamesPipeline) :=
  C3_compile_error_keeps_pipeline flamesPage flamesSM flamesPipeline
    "bogus" (fun s => decide (s = "flames")) 1000
    rfl rfl rfl (by decide) rfl rfl rfl
    (by norm_num [flamesPage])

/-- C4: a successful effect switch on an active surface does not restart the
frame loop or its time origin: with `tick(t₁)`, then `setEffect(x)`
succeeding, then `tick(t₂)`, both ticks render with elapsed time measured
from the same `startTime`, and `t₂ > t₁` gives a strictly larger elapsed
time — the elapsed-time uniform stays continuous across effect changes. -/
theorem C4_elapsed_time_continuous (p : OverlayPage) (sm : ShaderManager)
    (pd : PipelineData) (x : String) (ck : String → Bool) (t₁ t₂ : ℚ)
    (p₂ : OverlayPage)
    (hsm : p.shaderManager = some sm) (hcur : sm.currentPipeline = some pd)
    (hstop : p.shouldStopAnimation = false)
    (ht₁ : 1 / 60 ≤ t₁ / 1000 - p.lastFrameTime)
    (hsw : OverlayPage.changeShader (renderTick p t₁).1 x ck = .ok p₂)
    (ht₂ : 1 / 60 ≤ t₂ / 1000 - t₁ / 1000)
    (htlt : t₁ < t₂) :
    (renderTick p t₁).2 = some (t₁ / 1000 - p.startTime, pd) ∧
    p₂.startTime = p.startTime ∧
    p₂.shouldStopAnimation = false ∧
    (∃ pd₂, (renderTick p₂ t₂).2 = some (t₂ / 1000 - p.startTime, pd₂)) ∧
    t₁ / 1000 - p.startTime < t₂ / 1000 - p.startTime := by
  have hn₁ : ¬ (t₁ / 1000 - p.lastFrameTime < (60 : ℚ)⁻¹) := by
    rw [inv_eq_one_div]
    exact not_lt.mpr ht₁
  have hp₁ : renderTick p t₁ =
      ({ p with lastFrameTime := t₁ / 1000 }, some (t₁ / 1000 - p.startTime, pd)) := by
    unfold renderTick
    simp [hstop, hsm, hcur, hn₁]
  rw [hp₁] at hsw
  obtain ⟨hst, hlf, hflag, hpipe⟩ := changeShader_ok_preserves _ _ _ _ hsw
  have hst₂ : p₂.startTime = p.startTime := by rw [hst]
  have hlf₂ : p₂.lastFrameTime = t₁ / 1000 := by rw [hlf]
  have hflag₂ : p₂.shouldStopAnimation = false := by rw [hflag]; exact hstop
  obtain ⟨sm₂, pd₂, hsm₂, hcur₂⟩ := hpipe sm pd hsm hcur
  have hn₂ : ¬ (t₂ / 1000 - p₂.lastFrameTime < (60 : ℚ)⁻¹) := by
    rw [hlf₂, inv_eq_one_div]
    exact not_lt.mpr ht₂
  refine ⟨by rw [hp₁], hst₂, hflag₂, ⟨pd₂, ?_⟩, by linarith⟩
  unfold renderTick
  simp [hflag₂, hsm₂, hcur₂, hn₂, hst₂]

/-- Witness for C4: render at 1000 ms, switch from "flames" to "clouds"
successfully, render at 2000 ms. -/
theorem C4_elapsed_time_continuous_witness :
    (renderTick flamesPage 1000).2 =
      some (1000 / 1000 - flamesPage.startTime, flamesPipeline) ∧
    cloudsPage.startTime = flamesPage.startTime ∧
    cloudsPage.shouldStopAnimation = false ∧
    (∃ pd₂, (renderTick cloudsPage 2000).2 =
      some (2000 / 1000 - flamesPage.startTime, pd₂)) ∧
    (1000 : ℚ) / 1000 - flamesPage.startTime < 2000 / 1000 - flamesPage.startTime :=
  C4_elapsed_time_continuous flamesPage flamesSM flamesPipeline
    "clouds" (fun _ => true) 1000 2000 cloudsPage
    rfl rfl rfl (by norm_num [flamesPage]) (by
      unfold renderTick
      norm_num [flamesPage, flamesSM, flamesPipeline, OverlayPage.changeShader,
        ShaderManager.createPipeline, ShaderManager.findPipeline,
        ShaderManager.setCurrentPipeline, cloudsPage, cloudsSM, cloudsPipeline,
        List.lookup]
      simp)
    (by norm_num) (by norm_num)

/-- Witness for C10 on a store holding the default shader type. -/
theorem C10_toggle_writes_only_enabled_witness :
    (setState { enabled := some true, shaderType := some "flames" } true false none).2.shaderType =
      some "flames" ∧
    (setState { enabled := some true, shaderType := some "flames" } true false (some "")).2.shaderType =
      some "flames" ∧
    (toggleState { enabled := some true, shaderType := some "flames" } true true).2.shaderType =
      some "flames" ∧
    (setState { enabled := some true, shaderType := some "flames" } true false (some "")).2.shaderType ≠
      some "" :=
  C10_toggle_writes_only_enabled
    { enabled := some true, shaderType := some "flames" } false true true (some "")
    (by simp)

/-- When no pending timer is due at or before the event's time, the event
handler fires nothing. -/
theorem fireDue_skip (s : ResizeState) (t : ℚ) (curW curH : Nat)
    (h : noFireBefore s.pendingFire t) : fireDue s t curW curH = (s, []) := by
  unfold fireDue
  rcases hpf : s.pendingFire with _ | f
  · rfl
  · rw [hpf] at h
    simp only [noFireBefore] at h
    simp [not_le.mpr h]

/-- Running the handler over a burst of events with no timer due before the
first one performs the single final timeout body: one reconfiguration with
the dimensions of the last event when they differ from the canvas's, and
none when they are equal. -/
theorem runResize_burst (evs : List (ℚ × Nat × Nat)) :
    ∀ (hne : evs ≠ []) (s : ResizeState) (curW curH : Nat),
      burstGaps evs → pendOk s evs →
      (runResize s curW curH evs).2 =
        if s.canvasW ≠ (evs.getLast hne).2.1 ∨ s.canvasH ≠ (evs.getLast hne).2.2 then
          [(evs.getLast hne).2]
        else [] := by
  induction evs with
  | nil => intro hne; exact absurd rfl hne
  | cons e rest ih =>
      intro hne s curW curH hb hp
      obtain ⟨t, w, h⟩ := e
      have hfd : fireDue s t curW curH = (s, []) :=
        fireDue_skip s t curW curH (by simpa [pendOk] using hp)
      have hfd1 : (fireDue s t curW curH).1 = s := by rw [hfd]
      have hfd2 : (fireDue s t curW curH).2 = [] := by rw [hfd]
      cases rest with
      | nil =>
          simp only [runResize, hfd1, hfd2, List.nil_append, List.getLast_singleton]
          show (fireBody (handleResizeEvent s t) w h).2 = _
          unfold fireBody handleResizeEvent
          split_ifs with hc
          · rfl
          · rfl
      | cons e₂ rest₂ =>
          obtain ⟨hb₁, hb₂, hb₃⟩ : t ≤ e₂.1 ∧ e₂.1 < t + debounceDelay ∧
              burstGaps (e₂ :: rest₂) := hb
          have hp₂ : pendOk (handleResizeEvent s t) (e₂ :: rest₂) := by
            obtain ⟨t₂, w₂, h₂⟩ := e₂
            simpa [pendOk, handleResizeEvent, noFireBefore] using hb₂
          have hne₂ : e₂ :: rest₂ ≠ [] := by simp
          have hrec := ih hne₂ (handleResizeEvent s t) w h hb₃ hp₂
          have hstep : (runResize s curW curH ((t, w, h) :: e₂ :: rest₂)).2 =
              (fireDue s t curW curH).2 ++
                (runResize (handleResizeEvent (fireDue s t curW curH).1 t) w h
                  (e₂ :: rest₂)).2 := rfl
          rw [hstep, hfd1, hfd2, List.nil_append, hrec]
          have hgl : ((t, w, h) :: e₂ :: rest₂).getLast hne = (e₂ :: rest₂).getLast hne₂ :=
            List.getLast_cons hne₂
          rw [hgl]
          rfl

/-- C9: a burst of resize events all falling within the debounce window,
starting with no timer pending, produces exactly one execution of the resize
body: one surface reconfiguration using the dimensions reported last, skipped
entirely when those equal the canvas's current dimensions. -/
theorem C9_debounced_resize (s : ResizeState) (curW curH : Nat)
    (evs : List (ℚ × Nat × Nat)) (hne : evs ≠ [])
    (hpend : s.pendingFire = none) (hb : burstGaps evs) :
    (runResize s curW curH evs).2 =
      if s.canvasW ≠ (evs.getLast hne).2.1 ∨ s.canvasH ≠ (evs.getLast hne).2.2 then
        [(evs.getLast hne).2]
      else [] := by
  apply runResize_burst evs hne s curW curH hb
  cases evs with
  | nil => trivial
  | cons e rest =>
      obtain ⟨t, w, h⟩ := e
      simp [pendOk, noFireBefore, hpend]

/-- Witness for C9: three resize events within 5 ms on an 800×600 canvas,
ending at 1920×1080 — one reconfiguration, using the last dimensions. -/
theorem C9_debounced_resize_witness :
    (runResize { pendingFire := none, canvasW := 800, canvasH := 600 } 800 600
      [(0, 800, 600), (2, 1024, 768), (5, 1920, 1080)]).2 =
      if (800 : Nat) ≠ ([(0, 800, 600), (2, 1024, 768), ((5 : ℚ), 1920, 1080)].getLast
            (by simp)).2.1 ∨
         (600 : Nat) ≠ ([(0, 800, 600), (2, 1024, 768), ((5 : ℚ), 1920, 1080)].getLast
            (by simp)).2.2 then
        [([(0, 800, 600), (2, 1024, 768), ((5 : ℚ), 1920, 1080)].getLast (by simp)).2]
      else [] :=
  C9_debounced_resize { pendingFire := none, canvasW := 800, canvasH := 600 } 800 600
    [(0, 800, 600), (2, 1024, 768), (5, 1920, 1080)] (by simp) rfl
    (by refine ⟨by norm_num, by norm_num [debounceDelay], by norm_num, by norm_num [debounceDelay], trivial⟩)

end ShadeIt
